import Mathlib

/-!
Shallow embedding of the MedSynQ server (`src/server.py`): a minimal
multi-tenant record-management web application.  The relational store
(SQLite tables `tenants`, `users`, `patients`) is modelled as lists of
records with explicit auto-increment counters; the in-memory session
registry (`SESSIONS`, a Python dict) is modelled as an insertion-ordered
association list; each HTTP handler becomes a pure function from the
request data and the current state to a response and the new state.
-/

/-- Row of the `tenants` table: `id INTEGER PRIMARY KEY AUTOINCREMENT`,
`name TEXT NOT NULL UNIQUE`. -/
structure Tenant where
  id : Nat
  name : String
deriving DecidableEq

/-- Row of the `users` table. -/
structure User where
  id : Nat
  tenantId : Nat
  name : String
  email : String
  password : String
deriving DecidableEq

/-- Row of the `patients` table; `date_of_birth` and `notes` are NULLABLE. -/
structure Patient where
  id : Nat
  tenantId : Nat
  name : String
  dateOfBirth : Option String
  notes : Option String
deriving DecidableEq

/-- Value stored in the `SESSIONS` dict: the identity snapshot
`{id: user_id, user_name, tenant_id, tenant_name}` captured at
login / registration time. -/
structure SessionData where
  id : Nat
  userName : String
  tenantId : Nat
  tenantName : String
deriving DecidableEq

/-- One row of the dashboard listing as handed to the template:
`{name, date_of_birth, notes}` with SQL NULL surfaced as `''`. -/
structure PatientView where
  name : String
  dateOfBirth : String
  notes : String
deriving DecidableEq

/-- The SQLite database: three tables plus their AUTOINCREMENT counters. -/
structure Store where
  tenants : List Tenant
  users : List User
  patients : List Patient
  nextTenantId : Nat
  nextUserId : Nat
  nextPatientId : Nat
deriving DecidableEq

/-- The in-memory session registry `SESSIONS`: a Python dict modelled as an
insertion-ordered association list from session token to snapshot. -/
abbrev Sessions := List (String × SessionData)

/-- Responses a handler can produce.  `page t u e` is a 200 HTML response
rendering template `t` with context `user=u, error=e`; `dashboardPage`
renders `dashboard.html` with the patient rows; `redirectSetSession` is the
302 produced by `set_session` (Set-Cookie: session_id=token) followed by a
`Location` header; `redirectClearSession` is the 302 produced by
`clear_session` (expired cookie) followed by a `Location` header;
`staticOk fp` is a 200 serving the file at resolved path `fp`. -/
inductive Response where
  | page : String → Option SessionData → Option String → Response
  | dashboardPage : SessionData → List PatientView → Response
  | redirect : String → Response
  | redirectSetSession : String → String → Response
  | redirectClearSession : String → Response
  | notFound : Response
  | staticNotFound : Response
  | staticOk : String → Response
deriving DecidableEq

/-- Test whether the first list is a leading segment of the second
(structural, so that concrete instances reduce definitionally). -/
def listBegins {α : Type} [BEq α] : List α → List α → Bool
  | [], _ => true
  | _ :: _, [] => false
  | a :: as, b :: bs => a == b && listBegins as bs

/-- Model of Python `s.startswith(pre)`. -/
def strBegins (s pre : String) : Bool :=
  listBegins pre.toList s.toList

/-- Model of Python `str.strip()`: drop leading and trailing whitespace. -/
def pyStrip (s : String) : String :=
  String.mk (((s.toList.dropWhile Char.isWhitespace).reverse.dropWhile
    Char.isWhitespace).reverse)

/-- Model of Python `s.lstrip('/')`: drop all leading slash characters. -/
def lstripSlashes (s : String) : String :=
  String.mk (s.toList.dropWhile (fun c => c == '/'))

/-- Split a character list at every occurrence of `c`. -/
def splitListChar (c : Char) : List Char → List (List Char)
  | [] => [[]]
  | a :: rest =>
    if a == c then [] :: splitListChar c rest
    else
      match splitListChar c rest with
      | [] => [[a]]
      | g :: gs => (a :: g) :: gs

/-- Split a string at every occurrence of the character `c`. -/
def splitOnChar (c : Char) (s : String) : List String :=
  (splitListChar c s.toList).map String.mk

/-- Model of `urllib.parse.urlparse(raw).path`: the path component is what
comes before the first `?` (query) or `#` (fragment). -/
def urlPath (raw : String) : String :=
  String.mk (raw.toList.takeWhile (fun c => c != '?' && c != '#'))

/-- Model of `data.get(key, [''])[0]` over the dict produced by
`urllib.parse.parse_qs`: the first value bound to `key`, or `''` when the
key is absent. -/
def getField (form : List (String × String)) (key : String) : String :=
  match form.find? (fun kv => kv.1 == key) with
  | some kv => kv.2
  | none => ""

/-- Model of one `key=value` morsel as parsed by
`http.cookies.SimpleCookie.load`: a part with no `=` sign is malformed and
makes the parse fail (`CookieError`), which `get_session` catches. -/
def parseCookiePair (s : String) : Option (String × String) :=
  let cs := s.toList
  if cs.contains '=' then
    some (pyStrip (String.mk (cs.takeWhile (fun a => a != '='))),
      String.mk ((cs.dropWhile (fun a => a != '=')).drop 1))
  else none

/-- Model of `http.cookies.SimpleCookie.load` on a whole `Cookie` header:
split on `;` and parse each morsel; `none` models a raised `CookieError`. -/
def parseCookieHeader (h : String) : Option (List (String × String)) :=
  (splitOnChar ';' h).mapM parseCookiePair

/-- `SESSIONS.get(session_id)`: first binding of the token, if any. -/
def lookupSession (reg : Sessions) (tok : String) : Option SessionData :=
  match reg.find? (fun e => e.1 == tok) with
  | some e => some e.2
  | none => none

/-- Python dict assignment `SESSIONS[tok] = d`: replace in place when the
key exists, else append (dicts preserve insertion order). -/
def dictInsert (reg : Sessions) (tok : String) (d : SessionData) : Sessions :=
  if reg.any (fun e => e.1 == tok) then
    reg.map (fun e => if e.1 == tok then (tok, d) else e)
  else reg ++ [(tok, d)]

/-- `MedSynQHandler.get_session`: read the `session_id` cookie from the
`Cookie` header (if present), look the token up in `SESSIONS`; any parse
failure is caught and yields `none`. -/
def get_session (hdr : Option String) (reg : Sessions) : Option SessionData :=
  match hdr with
  | none => none
  | some h =>
    match parseCookieHeader h with
    | none => none
    | some kvs =>
      match kvs.find? (fun kv => kv.1 == "session_id") with
      | none => none
      | some kv => lookupSession reg kv.2

/-- The loop in `handle_logout`: iterate over `list(SESSIONS.items())` in
insertion order, delete the first entry whose stored user id matches, then
`break`. -/
def removeFirstByUser (uid : Nat) : Sessions → Sessions
  | [] => []
  | e :: rest => if e.2.id = uid then rest else e :: removeFirstByUser uid rest

/-- `MedSynQHandler.handle_logout`: send the cookie-clearing 302, then (with
the request's Cookie header still in place) resolve the session and, when
one is found, delete the first registry entry with the same user id;
finally send `Location: /`. -/
def handle_logout (reg : Sessions) (hdr : Option String) :
    Response × Sessions :=
  match get_session hdr reg with
  | some s => (.redirectClearSession "/", removeFirstByUser s.id reg)
  | none => (.redirectClearSession "/", reg)

/-- `os.path.join(os.path.dirname(__file__), path.lstrip('/'))`. -/
def resolveStatic (baseDir rpath : String) : String :=
  baseDir ++ "/" ++ lstripSlashes rpath

/-- `MedSynQHandler.serve_static`: 404 unless `os.path.isfile` holds of the
joined path, else 200 with the file's bytes.  `isFile` abstracts the disk
(`os.path.isfile`, which resolves `.` and `..` segments natively). -/
def serve_static (isFile : String → Bool) (baseDir rpath : String) :
    Response :=
  let fp := resolveStatic baseDir rpath
  if isFile fp then .staticOk fp else .staticNotFound

/-- Normalize a POSIX path string into its list of segments, resolving `.`
and `..` the way the operating system does when opening the file. -/
def normalizePath (p : String) : List String :=
  (splitOnChar '/' p).foldl
    (fun acc seg =>
      if seg = "" then acc
      else if seg = "." then acc
      else if seg = ".." then acc.dropLast
      else acc ++ [seg]) []

/-- Whether the file at path `fp` lies inside directory `dir`, comparing
normalized segment lists. -/
def inDir (dir fp : String) : Bool :=
  listBegins (normalizePath dir) (normalizePath fp)

/-- The SQL `SELECT name, date_of_birth, notes FROM patients WHERE
tenant_id = ?` row as built in `render_dashboard`: `row[1] or ''` and
`row[2] or ''` turn NULL into the empty string. -/
def patientView (p : Patient) : PatientView :=
  ⟨p.name, p.dateOfBirth.getD "", p.notes.getD ""⟩

/-- The dashboard listing for a tenant: all patient rows with that
`tenant_id`, in insertion order, with NULL dob/notes surfaced as `''`. -/
def listPatients (st : Store) (tid : Nat) : List PatientView :=
  (st.patients.filter (fun p => p.tenantId == tid)).map patientView

/-- `MedSynQHandler.render_dashboard`: render `dashboard.html` with the
session's user and the tenant-filtered patient rows. -/
def render_dashboard (st : Store) (s : SessionData) : Response :=
  .dashboardPage s (listPatients st s.tenantId)

/-- `SELECT id FROM tenants WHERE name = ?` (first row). -/
def find_tenant_by_name (st : Store) (nm : String) : Option Tenant :=
  st.tenants.find? (fun t => t.name == nm)

/-- `SELECT id, name, password FROM users WHERE tenant_id = ? AND
email = ?` (first row). -/
def find_user (st : Store) (tid : Nat) (email : String) : Option User :=
  st.users.find? (fun u => u.tenantId == tid && u.email == email)

/-- `MedSynQHandler.handle_register_tenant`.  The tenant INSERT hits the
UNIQUE constraint on `tenants.name` when the name already exists; the
`sqlite3.IntegrityError` branch closes the connection without committing,
so neither INSERT persists.  On success the new admin is logged in with a
fresh token (`uuid4`, supplied here as `freshTok`) and redirected. -/
def handle_register_tenant (st : Store) (reg : Sessions) (freshTok : String)
    (form : List (String × String)) : Response × Store × Sessions :=
  let tenantName := pyStrip (getField form "tenantName")
  let adminName := pyStrip (getField form "adminName")
  let adminEmail := pyStrip (getField form "adminEmail")
  let adminPassword := getField form "adminPassword"
  if tenantName = "" ∨ adminName = "" ∨ adminEmail = "" ∨ adminPassword = ""
  then
    (.page "register_tenant.html" none (some "All fields are required."),
      st, reg)
  else if st.tenants.any (fun t => t.name == tenantName) then
    (.page "register_tenant.html" none
      (some "Organisation name already exists."), st, reg)
  else
    let tid := st.nextTenantId
    let uid := st.nextUserId
    let st2 : Store :=
      { st with
        tenants := st.tenants ++ [⟨tid, tenantName⟩],
        users := st.users ++ [⟨uid, tid, adminName, adminEmail,
          adminPassword⟩],
        nextTenantId := tid + 1,
        nextUserId := uid + 1 }
    (.redirectSetSession "/dashboard" freshTok, st2,
      dictInsert reg freshTok ⟨uid, adminName, tid, tenantName⟩)

/-- `MedSynQHandler.handle_login`: validate, find the tenant by name, find
the user by (tenant, email), compare passwords by exact string equality;
either lookup failure or a password mismatch yields the one shared
"Invalid credentials." message. -/
def handle_login (st : Store) (reg : Sessions) (freshTok : String)
    (form : List (String × String)) : Response × Sessions :=
  let tenantName := pyStrip (getField form "tenantName")
  let email := pyStrip (getField form "email")
  let password := getField form "password"
  if tenantName = "" ∨ email = "" ∨ password = "" then
    (.page "login.html" none (some "All fields are required."), reg)
  else
    match find_tenant_by_name st tenantName with
    | none => (.page "login.html" none (some "Organisation not found."), reg)
    | some t =>
      match find_user st t.id email with
      | none => (.page "login.html" none (some "Invalid credentials."), reg)
      | some u =>
        if u.password ≠ password then
          (.page "login.html" none (some "Invalid credentials."), reg)
        else
          (.redirectSetSession "/dashboard" freshTok,
            dictInsert reg freshTok ⟨u.id, u.name, t.id, tenantName⟩)

/-- `MedSynQHandler.handle_new_patient`: require a valid session, trim the
name, store empty dob/notes as NULL (`dob if dob else None`), insert the
patient under the session's tenant id, redirect to the dashboard. -/
def handle_new_patient (st : Store) (reg : Sessions) (hdr : Option String)
    (form : List (String × String)) : Response × Store :=
  match get_session hdr reg with
  | none => (.redirect "/login", st)
  | some session =>
    let name := pyStrip (getField form "name")
    let dob := getField form "date_of_birth"
    let notes := getField form "notes"
    if name = "" then
      (.page "new_patient.html" (some session) (some "Name is required."), st)
    else
      let p : Patient :=
        ⟨st.nextPatientId, session.tenantId, name,
          (if dob = "" then none else some dob),
          (if notes = "" then none else some notes)⟩
      (.redirect "/dashboard",
        { st with
          patients := st.patients ++ [p],
          nextPatientId := st.nextPatientId + 1 })

/-- `MedSynQHandler.do_GET`: parse the URL path, serve `/public/*`
statically, otherwise resolve the session and dispatch by path. -/
def do_GET (isFile : String → Bool) (baseDir : String) (st : Store)
    (reg : Sessions) (raw : String) (hdr : Option String) :
    Response × Sessions :=
  let path := urlPath raw
  if strBegins path "/public/" then (serve_static isFile baseDir path, reg)
  else
    let session := get_session hdr reg
    if path = "/" then (.page "index.html" session none, reg)
    else if path = "/register-tenant" then
      (.page "register_tenant.html" session none, reg)
    else if path = "/login" then (.page "login.html" session none, reg)
    else if path = "/dashboard" then
      match session with
      | none => (.redirect "/login", reg)
      | some s => (render_dashboard st s, reg)
    else if path = "/patients/new" then
      match session with
      | none => (.redirect "/login", reg)
      | some s => (.page "new_patient.html" (some s) none, reg)
    else if path = "/logout" then handle_logout reg hdr
    else (.notFound, reg)

/-- `MedSynQHandler.do_POST`: parse the URL path and dispatch to the three
POST handlers, else 404. -/
def do_POST (st : Store) (reg : Sessions) (freshTok : String) (raw : String)
    (hdr : Option String) (form : List (String × String)) :
    Response × Store × Sessions :=
  let path := urlPath raw
  if path = "/register-tenant" then handle_register_tenant st reg freshTok form
  else if path = "/login" then
    let r := handle_login st reg freshTok form
    (r.1, st, r.2)
  else if path = "/patients/new" then
    let r := handle_new_patient st reg hdr form
    (r.1, r.2, reg)
  else (.notFound, st, reg)

/-! Helper lemmas and concrete states used by the verification below. -/

/-- Surfacing an empty-encoded optional field yields the raw input back:
storing `''` as NULL and rendering NULL as `''` round-trips. -/
theorem optOfEmpty_getD (s : String) :
    (if s = "" then none else some s).getD "" = s := by
  by_cases h : s = "" <;> simp [h]

/-- Every entry surviving the logout deletion loop was in the registry. -/
theorem removeFirstByUser_sub (uid : Nat) (reg : Sessions) :
    ∀ e ∈ removeFirstByUser uid reg, e ∈ reg := by
  induction reg with
  | nil => intro e he; simp [removeFirstByUser] at he
  | cons a rest ih =>
    intro e he
    by_cases h : a.2.id = uid
    · simp only [removeFirstByUser, if_pos h] at he
      exact List.mem_cons_of_mem a he
    · simp only [removeFirstByUser, if_neg h] at he
      rcases List.mem_cons.mp he with h1 | h2
      · exact h1 ▸ List.mem_cons_self a rest
      · exact List.mem_cons_of_mem a (ih e h2)

/-- The logout deletion loop keeps every entry of a different user. -/
theorem removeFirstByUser_keeps (uid : Nat) (reg : Sessions) :
    ∀ e ∈ reg, e.2.id ≠ uid → e ∈ removeFirstByUser uid reg := by
  induction reg with
  | nil => intro e he; simp at he
  | cons a rest ih =>
    intro e he hid
    by_cases h : a.2.id = uid
    · simp only [removeFirstByUser, if_pos h]
      rcases List.mem_cons.mp he with h1 | h2
      · exact absurd (by rw [h1]; exact h) hid
      · exact h2
    · simp only [removeFirstByUser, if_neg h]
      rcases List.mem_cons.mp he with h1 | h2
      · exact h1 ▸ List.mem_cons_self a (removeFirstByUser uid rest)
      · exact List.mem_cons_of_mem a (ih e h2 hid)

/-- Identity snapshot of tenant Acme's admin, as stored at login time. -/
def wSess : SessionData := ⟨1, "Al", 1, "Acme"⟩

/-- Identity snapshot of a second, unrelated user of another tenant. -/
def boSess : SessionData := ⟨2, "Bo", 2, "BoCo"⟩

/-- A registry holding one session for the Acme admin. -/
def wReg : Sessions := [("tk", wSess)]

/-- The Cookie header carrying that session's token. -/
def wHdr : Option String := some "session_id=tk"

/-- A registry holding sessions of two different users. -/
def regW : Sessions := [("a", wSess), ("b", boSess)]

/-- A store with two tenants, tenant 1 owning one patient and tenant 2
another. -/
def wStore : Store :=
  { tenants := [⟨1, "Acme"⟩, ⟨2, "BoCo"⟩],
    users := [⟨1, 1, "Al", "al@acme.test", "pw"⟩],
    patients := [⟨1, 1, "Jane", none, none⟩,
      ⟨2, 2, "Eve", some "1970-01-01", none⟩],
    nextTenantId := 3, nextUserId := 2, nextPatientId := 3 }

/-- Same store with tenant 2's data replaced and tenant 1's intact. -/
def wStore2 : Store :=
  { wStore with
    patients := [⟨1, 1, "Jane", none, none⟩, ⟨9, 2, "Zed", none, some "n"⟩] }

/-- A store holding just the registered tenant "Acme" and its admin. -/
def acmeStore : Store :=
  { tenants := [⟨1, "Acme"⟩],
    users := [⟨1, 1, "Al", "al@acme.test", "pw"⟩],
    patients := [], nextTenantId := 2, nextUserId := 2, nextPatientId := 1 }

/-- The application directory as laid out on disk: `server.py` sits next to
the `public` directory, so `os.path.isfile` (which resolves `..` segments
natively) accepts both the whitelisted asset and the traversal path that
denotes `server.py` itself. -/
def trustedFS : String → Bool := fun fp =>
  fp == "/srv/medsynq/public/style.css"
    || fp == "/srv/medsynq/public/../server.py"

/-- C8: session resolution from the Cookie header is total: it returns the
stored snapshot or `none`, and yields `none` for a missing header, for a
malformed cookie string, and delegates unknown tokens to the registry
lookup — no case raises. -/
theorem get_session_total (hdr : Option String) (reg : Sessions) :
    (get_session hdr reg = none
      ∨ ∃ tok d, lookupSession reg tok = some d ∧ get_session hdr reg = some d)
  ∧ get_session none reg = none
  ∧ get_session (some "not a cookie at all") reg = none
  ∧ get_session (some "session_id=tok") reg = lookupSession reg "tok" := by
  refine ⟨?_, rfl, rfl, rfl⟩
  cases hdr with
  | none => exact Or.inl rfl
  | some h =>
    cases hp : parseCookieHeader h with
    | none => exact Or.inl (by simp [get_session, hp])
    | some kvs =>
      cases hk : kvs.find? (fun kv => kv.1 == "session_id") with
      | none => exact Or.inl (by simp [get_session, hp, hk])
      | some kv =>
        cases hl : lookupSession reg kv.2 with
        | none => exact Or.inl (by simp [get_session, hp, hk, hl])
        | some d =>
          exact Or.inr ⟨kv.2, d, hl, by simp [get_session, hp, hk, hl]⟩

/-- C10: logout only ever deletes registry entries of the requesting
session's own user: everything left afterwards was there before, every
entry of a different user survives with key and snapshot unchanged, and a
logout without a valid session deletes nothing. -/
theorem logout_frame (reg : Sessions) (hdr : Option String) :
    (∀ e, e ∈ (handle_logout reg hdr).2 → e ∈ reg)
  ∧ (∀ s, get_session hdr reg = some s →
      ∀ e, e ∈ reg → e.2.id ≠ s.id → e ∈ (handle_logout reg hdr).2)
  ∧ (get_session hdr reg = none → (handle_logout reg hdr).2 = reg) := by
  refine ⟨?_, ?_, ?_⟩
  · intro e he
    cases hs : get_session hdr reg with
    | none => simp only [handle_logout, hs] at he; exact he
    | some s =>
      simp only [handle_logout, hs] at he
      exact removeFirstByUser_sub s.id reg e he
  · intro s hs e he hid
    simp only [handle_logout, hs]
    exact removeFirstByUser_keeps s.id reg e he hid
  · intro hs
    simp [handle_logout, hs]

/-- Witness for C10: logging out user 1 (session token `a`) keeps user 2's
entry `("b", boSess)` intact, and logout against an empty registry deletes
nothing. -/
theorem logout_frame_witness :
    (("b", boSess) ∈ (handle_logout regW (some "session_id=a")).2)
  ∧ (("b", boSess) ∈ regW)
  ∧ (handle_logout [] (some "session_id=a")).2 = [] :=
  ⟨(logout_frame regW (some "session_id=a")).2.1 wSess (by decide)
      ("b", boSess) (by decide) (by decide),
    by decide,
    (logout_frame [] (some "session_id=a")).2.2 (by decide)⟩

/-- C2: the logout loop `break`s after deleting the first matching entry.
With two concurrent sessions for user 1 (tokens `t1` then `t2`) and a
logout request carrying `t2`, only `t1` is deleted: the request's own
token `t2` still resolves afterwards, so the previously valid token does
not fail lookup and protected routes still treat it as authenticated. -/
theorem logout_break_bug :
    get_session (some "session_id=t2") [("t1", wSess), ("t2", wSess)]
      = some wSess
  ∧ (handle_logout [("t1", wSess), ("t2", wSess)]
      (some "session_id=t2")).2 = [("t2", wSess)]
  ∧ lookupSession (handle_logout [("t1", wSess), ("t2", wSess)]
      (some "session_id=t2")).2 "t2" = some wSess := by decide

/-- C3: `serve_static` joins the raw request path onto the application
directory without normalizing `..` segments, so
`GET /public/../server.py` serves the file that resolves to
`<app>/server.py` with a 200 even though it lies outside the whitelisted
`public` directory; a path that resolves to no file still yields 404. -/
theorem serve_static_escape :
    do_GET trustedFS "/srv/medsynq" wStore wReg "/public/../server.py" none
      = (Response.staticOk "/srv/medsynq/public/../server.py", wReg)
  ∧ inDir "/srv/medsynq/public" "/srv/medsynq/public/../server.py" = false
  ∧ normalizePath "/srv/medsynq/public/../server.py"
      = ["srv", "medsynq", "server.py"]
  ∧ inDir "/srv/medsynq/public" "/srv/medsynq/public/style.css" = true
  ∧ serve_static trustedFS "/srv/medsynq" "/public/missing.css"
      = Response.staticNotFound := by decide

/-- C4 counterexample: tenant "Acme" already exists, yet a duplicate
registration whose admin fields are empty is answered with the
validation-error page, not the DuplicateName page — the claim's "for any
admin fields" fails, because field validation runs before the duplicate
check. -/
theorem register_duplicate_cex :
    (handle_register_tenant acmeStore [] "tk2" [("tenantName", "Acme")]).1
      = Response.page "register_tenant.html" none
          (some "All fields are required.")
  ∧ (handle_register_tenant acmeStore [] "tk2" [("tenantName", "Acme")]).1
      ≠ Response.page "register_tenant.html" none
          (some "Organisation name already exists.")
  ∧ (handle_register_tenant acmeStore [] "tk2" [("tenantName", "Acme")]).2
      = (acmeStore, ([] : Sessions)) := by decide

/-- C4 (amended): when the trimmed tenant name collides with an existing
tenant and the admin fields pass the non-emptiness validation, duplicate
registration is rejected atomically: the DuplicateName page is rendered
(HTTP 200) and both the store and the session registry are exactly as
before — no tenant, no user, no session. -/
theorem register_duplicate_atomic (st : Store) (reg : Sessions) (tok : String)
    (form : List (String × String))
    (hn : pyStrip (getField form "tenantName") ≠ "")
    (ha : pyStrip (getField form "adminName") ≠ "")
    (he : pyStrip (getField form "adminEmail") ≠ "")
    (hp : getField form "adminPassword" ≠ "")
    (hdup : st.tenants.any
      (fun t => t.name == pyStrip (getField form "tenantName")) = true) :
    handle_register_tenant st reg tok form
      = (Response.page "register_tenant.html" none
          (some "Organisation name already exists."), st, reg) := by
  simp only [handle_register_tenant]
  rw [if_neg (by push_neg; exact ⟨hn, ha, he, hp⟩), if_pos hdup]

/-- Witness for C4's amended theorem: re-registering " Acme " (which trims
to the existing name) with valid admin fields — including a whitespace-only
password, which validation accepts — yields the DuplicateName page and an
unchanged store and registry. -/
theorem register_duplicate_atomic_witness :
    handle_register_tenant acmeStore wReg "tk2"
        [("tenantName", " Acme "), ("adminName", "Bo"),
          ("adminEmail", "bo@x.y"), ("adminPassword", " ")]
      = (Response.page "register_tenant.html" none
          (some "Organisation name already exists."), acmeStore, wReg) :=
  register_duplicate_atomic acmeStore wReg "tk2" _
    (by decide) (by decide) (by decide) (by decide) (by decide)

/-- C5: for an existing tenant, a login whose email matches no user of the
tenant and a login whose email matches a user but whose password differs
both produce the identical response — the login page with the one shared
error text "Invalid credentials." — so the two failure causes cannot be
told apart. -/
theorem login_indistinguishable (st : Store) (reg : Sessions) (tok : String)
    (form1 form2 : List (String × String)) (t : Tenant) (u : User)
    (h1n : pyStrip (getField form1 "tenantName") ≠ "")
    (h1e : pyStrip (getField form1 "email") ≠ "")
    (h1p : getField form1 "password" ≠ "")
    (h1t : find_tenant_by_name st (pyStrip (getField form1 "tenantName"))
      = some t)
    (h1u : find_user st t.id (pyStrip (getField form1 "email")) = none)
    (h2n : pyStrip (getField form2 "tenantName") ≠ "")
    (h2e : pyStrip (getField form2 "email") ≠ "")
    (h2p : getField form2 "password" ≠ "")
    (h2t : find_tenant_by_name st (pyStrip (getField form2 "tenantName"))
      = some t)
    (h2u : find_user st t.id (pyStrip (getField form2 "email")) = some u)
    (h2pw : u.password ≠ getField form2 "password") :
    handle_login st reg tok form1
      = (Response.page "login.html" none (some "Invalid credentials."), reg)
  ∧ handle_login st reg tok form1 = handle_login st reg tok form2 := by
  have e1 : handle_login st reg tok form1
      = (Response.page "login.html" none (some "Invalid credentials."), reg) := by
    simp only [handle_login, h1t, h1u]
    rw [if_neg (by push_neg; exact ⟨h1n, h1e, h1p⟩)]
  have e2 : handle_login st reg tok form2
      = (Response.page "login.html" none (some "Invalid credentials."), reg) := by
    simp only [handle_login, h2t, h2u]
    rw [if_neg (by push_neg; exact ⟨h2n, h2e, h2p⟩), if_pos h2pw]
  exact ⟨e1, e1.trans e2.symm⟩

/-- Witness for C5: against the registered store, a login for tenant "Acme"
with an unknown email and one with the admin's email but a wrong password
return literally the same "Invalid credentials." page. -/
theorem login_indistinguishable_witness :
    handle_login acmeStore [] "tk3"
        [("tenantName", "Acme"), ("email", "bob@acme.test"), ("password", "x")]
      = (Response.page "login.html" none (some "Invalid credentials."),
          ([] : Sessions))
  ∧ handle_login acmeStore [] "tk3"
        [("tenantName", "Acme"), ("email", "bob@acme.test"), ("password", "x")]
      = handle_login acmeStore [] "tk3"
        [("tenantName", "Acme"), ("email", "al@acme.test"),
          ("password", "wrong")] :=
  login_indistinguishable acmeStore [] "tk3" _ _ ⟨1, "Acme"⟩
    ⟨1, 1, "Al", "al@acme.test", "pw"⟩
    (by decide) (by decide) (by decide) (by decide) (by decide)
    (by decide) (by decide) (by decide) (by decide) (by decide) (by decide)

/-- C9: registration requires all four fields non-empty, trimming tenant
name, admin name and email but not the password: whenever a required field
is empty under that rule the form is re-rendered with the validation error
and the store and registry are untouched; when all four pass, the
validation-error page is never the response. -/
theorem register_validation (st : Store) (reg : Sessions) (tok : String)
    (form : List (String × String)) :
    ((pyStrip (getField form "tenantName") = ""
        ∨ pyStrip (getField form "adminName") = ""
        ∨ pyStrip (getField form "adminEmail") = ""
        ∨ getField form "adminPassword" = "") →
      handle_register_tenant st reg tok form
        = (Response.page "register_tenant.html" none
            (some "All fields are required."), st, reg))
  ∧ (¬(pyStrip (getField form "tenantName") = ""
        ∨ pyStrip (getField form "adminName") = ""
        ∨ pyStrip (getField form "adminEmail") = ""
        ∨ getField form "adminPassword" = "") →
      (handle_register_tenant st reg tok form).1
        ≠ Response.page "register_tenant.html" none
            (some "All fields are required.")) := by
  constructor
  · intro h
    simp only [handle_register_tenant]
    rw [if_pos h]
  · intro h
    simp only [handle_register_tenant]
    rw [if_neg h]
    split
    · exact (by decide :
        Response.page "register_tenant.html" none
            (some "Organisation name already exists.")
          ≠ Response.page "register_tenant.html" none
            (some "All fields are required."))
    · exact fun hc => Response.noConfusion hc

/-- Witness for C9: a whitespace-only tenant name fails validation (form
re-rendered, state untouched), while a whitespace-only password passes it
(the response is anything but the validation-error page). -/
theorem register_validation_witness :
    handle_register_tenant wStore [] "tk4"
        [("tenantName", "   "), ("adminName", "Al"),
          ("adminEmail", "a@b.c"), ("adminPassword", "pw")]
      = (Response.page "register_tenant.html" none
          (some "All fields are required."), wStore, ([] : Sessions))
  ∧ (handle_register_tenant wStore [] "tk4"
        [("tenantName", "NewCo"), ("adminName", "Al"),
          ("adminEmail", "a@b.c"), ("adminPassword", "   ")]).1
      ≠ Response.page "register_tenant.html" none
          (some "All fields are required.") :=
  ⟨(register_validation wStore [] "tk4" _).1 (by decide),
    (register_validation wStore [] "tk4" _).2 (by decide)⟩

/-- C6: a GET to /dashboard or /patients/new whose session resolution fails
(no cookie, malformed cookie, or unknown token) is answered with a bare 302
redirect to /login carrying no patient data, and a POST to /patients/new is
gated the same way. -/
theorem session_gated (isFile : String → Bool) (baseDir : String) (st : Store)
    (reg : Sessions) (hdr : Option String) (form : List (String × String))
    (h : get_session hdr reg = none) :
    do_GET isFile baseDir st reg "/dashboard" hdr
      = (Response.redirect "/login", reg)
  ∧ do_GET isFile baseDir st reg "/patients/new" hdr
      = (Response.redirect "/login", reg)
  ∧ handle_new_patient st reg hdr form = (Response.redirect "/login", st) := by
  have h1 : do_GET isFile baseDir st reg "/dashboard" hdr =
      (match get_session hdr reg with
      | none => (Response.redirect "/login", reg)
      | some s => (render_dashboard st s, reg)) := rfl
  have h2 : do_GET isFile baseDir st reg "/patients/new" hdr =
      (match get_session hdr reg with
      | none => (Response.redirect "/login", reg)
      | some s => (Response.page "new_patient.html" (some s) none, reg)) := rfl
  refine ⟨?_, ?_, ?_⟩
  · rw [h1, h]
  · rw [h2, h]
  · simp only [handle_new_patient, h]

/-- Witness for C6: with an empty registry and a cookie holding an unknown
token, /dashboard and /patients/new redirect to /login and the patient POST
changes nothing. -/
theorem session_gated_witness :
    do_GET (fun _ => false) "/srv" wStore [] "/dashboard"
        (some "session_id=zzz")
      = (Response.redirect "/login", ([] : Sessions))
  ∧ do_GET (fun _ => false) "/srv" wStore [] "/patients/new"
        (some "session_id=zzz")
      = (Response.redirect "/login", ([] : Sessions))
  ∧ handle_new_patient wStore [] (some "session_id=zzz") [("name", "X")]
      = (Response.redirect "/login", wStore) :=
  session_gated (fun _ => false) "/srv" wStore [] (some "session_id=zzz")
    [("name", "X")] (by decide)

/-- C1: tenant isolation.  For any request carrying a valid session: the
dashboard rows are sound (each comes from a stored patient of the session's
tenant) and complete (every stored patient of that tenant appears); the
dashboard route renders exactly that listing; the dashboard response
depends only on the session's tenant's patients, so records of any other
tenant can never influence or leak into it; and patient creation only ever
adds records under the session's tenant id. -/
theorem tenant_isolation (isFile : String → Bool) (baseDir : String)
    (st st2 : Store) (reg : Sessions) (hdr : Option String)
    (form : List (String × String)) (s : SessionData)
    (h : get_session hdr reg = some s) :
    (∀ v ∈ listPatients st s.tenantId,
        ∃ p ∈ st.patients, p.tenantId = s.tenantId ∧ patientView p = v)
  ∧ (∀ p ∈ st.patients, p.tenantId = s.tenantId →
        patientView p ∈ listPatients st s.tenantId)
  ∧ do_GET isFile baseDir st reg "/dashboard" hdr
      = (Response.dashboardPage s (listPatients st s.tenantId), reg)
  ∧ (st.patients.filter (fun p => p.tenantId == s.tenantId)
        = st2.patients.filter (fun p => p.tenantId == s.tenantId) →
      do_GET isFile baseDir st reg "/dashboard" hdr
        = do_GET isFile baseDir st2 reg "/dashboard" hdr)
  ∧ (∀ p ∈ (handle_new_patient st reg hdr form).2.patients,
        p ∈ st.patients ∨ p.tenantId = s.tenantId) := by
  have hroute : ∀ st3 : Store, do_GET isFile baseDir st3 reg "/dashboard" hdr =
      (match get_session hdr reg with
      | none => (Response.redirect "/login", reg)
      | some sx => (render_dashboard st3 sx, reg)) := fun _ => rfl
  refine ⟨?_, ?_, ?_, ?_, ?_⟩
  · intro v hv
    simp only [listPatients, List.mem_map, List.mem_filter] at hv
    obtain ⟨p, ⟨hp, ht⟩, hpv⟩ := hv
    exact ⟨p, hp, by simpa using ht, hpv⟩
  · intro p hp ht
    simp only [listPatients, List.mem_map]
    exact ⟨p, List.mem_filter.mpr ⟨hp, by simpa using ht⟩, rfl⟩
  · rw [hroute st, h]
    rfl
  · intro hf
    rw [hroute st, hroute st2, h]
    show (render_dashboard st s, reg) = (render_dashboard st2 s, reg)
    simp only [render_dashboard, listPatients, hf]
  · intro p hp
    simp only [handle_new_patient, h] at hp
    by_cases hn : pyStrip (getField form "name") = ""
    · rw [if_pos hn] at hp
      exact Or.inl hp
    · rw [if_neg hn] at hp
      simp only [List.mem_append, List.mem_singleton] at hp
      rcases hp with h1 | h2
      · exact Or.inl h1
      · right; rw [h2]

/-- Witness for C1: with the two-tenant store, the Acme session's dashboard
shows exactly tenant 1's rows, changing only tenant 2's records leaves the
response identical, and the one patient reachable after a create under the
Acme session that is new carries tenant id 1. -/
theorem tenant_isolation_witness :
    do_GET (fun _ => false) "/srv" wStore wReg "/dashboard" wHdr
      = (Response.dashboardPage wSess (listPatients wStore wSess.tenantId),
          wReg)
  ∧ do_GET (fun _ => false) "/srv" wStore wReg "/dashboard" wHdr
      = do_GET (fun _ => false) "/srv" wStore2 wReg "/dashboard" wHdr
  ∧ ((⟨3, 1, "New", none, none⟩ : Patient) ∈ wStore.patients
      ∨ (⟨3, 1, "New", none, none⟩ : Patient).tenantId = wSess.tenantId) :=
  have H := tenant_isolation (fun _ => false) "/srv" wStore wStore2 wReg wHdr
    [("name", "New")] wSess (by decide)
  ⟨H.2.2.1, H.2.2.2.1 (by decide),
    H.2.2.2.2 ⟨3, 1, "New", none, none⟩ (by decide)⟩

/-- C7: creating a patient under a valid session with a (trimmed) non-empty
name stores exactly one new row under the session's tenant with empty dob
or notes encoded as NULL, redirects to the dashboard, and the subsequent
listing for that tenant gains exactly one row whose name is the trimmed
input and whose dob and notes render as the raw inputs (NULL surfacing as
the empty string undoes the empty-to-NULL encoding). -/
theorem patient_roundtrip (st : Store) (reg : Sessions) (hdr : Option String)
    (form : List (String × String)) (s : SessionData)
    (hs : get_session hdr reg = some s)
    (hn : pyStrip (getField form "name") ≠ "") :
    (handle_new_patient st reg hdr form).1 = Response.redirect "/dashboard"
  ∧ (handle_new_patient st reg hdr form).2.patients
      = st.patients
        ++ [⟨st.nextPatientId, s.tenantId, pyStrip (getField form "name"),
          (if getField form "date_of_birth" = "" then none
            else some (getField form "date_of_birth")),
          (if getField form "notes" = "" then none
            else some (getField form "notes"))⟩]
  ∧ listPatients (handle_new_patient st reg hdr form).2 s.tenantId
      = listPatients st s.tenantId
        ++ [⟨pyStrip (getField form "name"), getField form "date_of_birth",
          getField form "notes"⟩] := by
  simp only [handle_new_patient, hs]
  rw [if_neg hn]
  refine ⟨rfl, rfl, ?_⟩
  simp only [listPatients, List.filter_append, List.map_append]
  congr 1
  simp [patientView, optOfEmpty_getD]

/-- Witness for C7: the spec's concrete instance — name "Jane Doe",
dob "1990-01-01", notes "" — appears in the Acme dashboard listing exactly
as ("Jane Doe", "1990-01-01", ""). -/
theorem patient_roundtrip_witness :
    (handle_new_patient wStore wReg wHdr
        [("name", "Jane Doe"), ("date_of_birth", "1990-01-01"),
          ("notes", "")]).1 = Response.redirect "/dashboard"
  ∧ (handle_new_patient wStore wReg wHdr
        [("name", "Jane Doe"), ("date_of_birth", "1990-01-01"),
          ("notes", "")]).2.patients
      = wStore.patients ++ [⟨3, 1, "Jane Doe", some "1990-01-01", none⟩]
  ∧ listPatients (handle_new_patient wStore wReg wHdr
        [("name", "Jane Doe"), ("date_of_birth", "1990-01-01"),
          ("notes", "")]).2 wSess.tenantId
      = listPatients wStore wSess.tenantId
        ++ [⟨"Jane Doe", "1990-01-01", ""⟩] :=
  have H := patient_roundtrip wStore wReg wHdr
    [("name", "Jane Doe"), ("date_of_birth", "1990-01-01"), ("notes", "")]
    wSess (by decide) (by decide)
  ⟨H.1, H.2.1, H.2.2⟩
